import Mathlib

/-!
Verification of the `fastapi_user_crud_single_role` backend.

Shallow embedding of the authorization/scope model, the token issuance and
validation boundary, and the OTP challenge flows, translated from:
  - `core/scopes/set_scope.py` (role name constants)
  - `internal/token.py` (`create_access_token`, `assign_scopes`, `get_current_user`)
  - `routers/usr_user.py` (`create_user`, `set_password`, `set_role`,
    `request_reset_password`, `reset_password`)
  - `routers/usr_auth.py` (`log_in`)

Database rows are modelled as lists of records; `fetch_one` is the first
matching row and `update ... where` rewrites every matching row, as in SQL.
-/

/-- Role name constants from `core/scopes/set_scope.py` (`Role.X["name"]`). -/
def Role.SUPER_ADMIN : String := "SUPER_ADMIN"

def Role.ADMIN : String := "ADMIN"

def Role.MANAGER : String := "MANAGER"

def Role.USER : String := "USER"

def Role.REPORTING_USER : String := "REPORTING_USER"

/-- `internal/token.py::assign_scopes`: cascading membership tests, highest
role first; each hit returns the role plus everything ranked below it, and
no hit returns the empty list. -/
def assign_scopes (scopes : List String) : List String :=
  if Role.SUPER_ADMIN ∈ scopes then
    [Role.SUPER_ADMIN, Role.ADMIN, Role.MANAGER, Role.USER, Role.REPORTING_USER]
  else if Role.ADMIN ∈ scopes then
    [Role.ADMIN, Role.MANAGER, Role.USER, Role.REPORTING_USER]
  else if Role.MANAGER ∈ scopes then
    [Role.MANAGER, Role.USER, Role.REPORTING_USER]
  else if Role.USER ∈ scopes then
    [Role.USER, Role.REPORTING_USER]
  else if Role.REPORTING_USER ∈ scopes then
    [Role.REPORTING_USER]
  else []

/-- A row of `usr_user` (`core/models/database.py::UserTable`); `role_id` is
kept optional because `create_user` inserts rows without one. -/
structure UserRow where
  id : Nat
  username : String
  email : String
  password : Option String
  email_otp : Option String
  email_verified : Bool
  password_otp : Option String
  password_verified : Bool
  is_active : Bool
  role_id : Option Nat
deriving DecidableEq, Repr

/-- A row of `usr_role` (`core/models/database.py::RoleTable`). -/
structure RoleRow where
  id : Nat
  role_name : String
deriving DecidableEq, Repr

/-- Response values: `JSONResponse(status_code, detail)`, raised
`HTTPException(status_code, detail)`, or Python's implicit `None` return. -/
inductive Resp where
  | json (status_code : Nat) (detail : String)
  | err (status_code : Nat) (detail : String)
  | noResp
deriving DecidableEq, Repr

/-- The `credentials_exception` of `internal/token.py::get_current_user`. -/
def credentials_exception : Resp := .err 401 "Could not validate credentials"

/-- The scope-miss rejection of `internal/token.py::get_current_user`. -/
def not_enough_permissions : Resp := .err 401 "Not enough permissions"

/-- Claims of a session token as built by `routers/usr_auth.py::log_in`:
`{"sub": username, "scopes": scopes, "id": user_id}`. `sub`/`id` are optional
because `get_current_user` reads them with `payload.get`. -/
structure SessionClaims where
  sub : Option String
  id : Option Nat
  scopes : List String
deriving DecidableEq, Repr

/-- Modelled from the spec: a signed session token at the jose boundary
(§4.4) — a self-contained credential carrying its claims, an `exp` epoch
second, and the key/algorithm it was signed with. -/
structure SessionJwt where
  claims : SessionClaims
  exp : Nat
  key : String
  alg : String
deriving DecidableEq, Repr

/-- Modelled from the spec: `jose.jwt.decode` at the boundary (§4.4) —
signature check (key and algorithm must match) then expiry check; a
tampered or expired token fails closed with a `JWTError`. -/
def jwt_decode (t : SessionJwt) (key : String) (algs : List String) (now : Nat) :
    Except String SessionClaims :=
  if t.key = key ∧ t.alg ∈ algs then
    if t.exp < now then .error "ExpiredSignatureError"
    else .ok t.claims
  else .error "JWTError"

/-- `ACCESS_TOKEN_EXPIRE_MINUTES` from `dependencies.py`. -/
def ACCESS_TOKEN_EXPIRE_MINUTES : Nat := 1440

/-- `internal/token.py::create_access_token`: copies the claims and adds
`exp = now + TTL` (double TTL for refresh tokens); any other `token_type`
leaves `expire` unbound and the handler fails with a 500, modelled as
`none`. -/
def create_access_token (data : SessionClaims) (token_type : String) (now : Nat)
    (key alg : String) : Option SessionJwt :=
  if token_type = "access" then
    some ⟨data, now + ACCESS_TOKEN_EXPIRE_MINUTES * 60, key, alg⟩
  else if token_type = "refresh" then
    some ⟨data, now + ACCESS_TOKEN_EXPIRE_MINUTES * 2 * 60, key, alg⟩
  else none

/-- Python `str.upper` on the ASCII role names stored in `usr_role`. -/
def pyUpper (s : String) : String := ⟨s.data.map Char.toUpper⟩

/-- The join-and-fetch of `get_current_user`: `usr_user` joined with
`usr_role` on `role_id`, filtered by user id (`fetch_one` = first match;
a missing id, user, or role yields no row). -/
def fetch_user_role (users : List UserRow) (roles : List RoleRow) (uid : Option Nat) :
    Option (UserRow × String) :=
  match uid with
  | none => none
  | some uid =>
    match users.find? (fun u => u.id == uid) with
    | none => none
    | some u =>
      match u.role_id with
      | none => none
      | some rid =>
        (roles.find? (fun r => r.id == rid)).map (fun r => (u, r.role_name))

/-- The post-decode phase of `internal/token.py::get_current_user`: a
missing `sub` or a failed user/role lookup raises `credentials_exception`;
otherwise scopes are recomputed from the stored role name upper-cased and
every security scope must be present (a miss raises the 401 "Not enough
permissions" rejection). The token's own `scopes` claim is never read. -/
def gcu_after_decode (security_scopes : List String) (payload : SessionClaims)
    (users : List UserRow) (roles : List RoleRow) : Except Resp (UserRow × String) :=
  match payload.sub with
  | none => .error credentials_exception
  | some _username =>
    match fetch_user_role users roles payload.id with
    | none => .error credentials_exception
    | some (u, role_name) =>
      let token_scopes := assign_scopes [pyUpper role_name]
      if ∀ s ∈ security_scopes, s ∈ token_scopes then .ok (u, role_name)
      else .error not_enough_permissions

/-- `internal/token.py::get_current_user`: decode the bearer token (any
`JWTError` raises `credentials_exception`), then run the lookup and scope
check of `gcu_after_decode`. -/
def get_current_user (security_scopes : List String) (token : SessionJwt)
    (key alg : String) (now : Nat) (users : List UserRow) (roles : List RoleRow) :
    Except Resp (UserRow × String) :=
  match jwt_decode token key [alg] now with
  | .error _ => .error credentials_exception
  | .ok payload => gcu_after_decode security_scopes payload users roles

/-- Python's `<` on strings: lexicographic order on the code-point
sequences (a strict prefix is smaller). -/
def pyStrLt (s t : String) : Prop := List.Lex (· < ·) s.data t.data

instance pyStrLt.decidable (s t : String) : Decidable (pyStrLt s t) :=
  List.Lex.decidableRel (· < ·) s.data t.data

/-- Claims of an OTP challenge token (`jwt.encode({"email", "token",
"expiry"})` in `create_user` / `request_reset_password`); `expiry` is a
`"%Y-%m-%d %H:%M:%S"`-formatted string, not a numeric `exp` claim. -/
structure OtpClaims where
  email : String
  token : String
  expiry : String
deriving DecidableEq, Repr

/-- The row update applied by `set_password` on a correct OTP: hash the
password, clear `email_otp`, set `email_verified`. -/
def verifyUpdate (hash : String → String) (pw : String) (v : UserRow) : UserRow :=
  { v with password := some (hash pw), email_otp := none, email_verified := true }

/-- `routers/usr_user.py::set_password`. `token_data` is the decoded OTP
challenge token (`none` models a `JWTError`, raised as 401 "Invalid
token"); `hash` is the `pbkdf2_sha256.hash` boundary; `nowStr` is
`datetime.now().strftime("%Y-%m-%d %H:%M:%S")`. The expiry gate is Python
string comparison, modelled by `String` lexicographic order. -/
def set_password (hash : String → String) (nowStr : String)
    (token_data : Option OtpClaims) (password : String) (db : List UserRow) :
    Resp × List UserRow :=
  match token_data with
  | none => (.err 401 "Invalid token", db)
  | some td =>
    if pyStrLt td.expiry nowStr then (.json 401 "Token expired", db)
    else
      match db.find? (fun u => u.email == td.email) with
      | none => (.json 404 "User not found", db)
      | some u =>
        if u.email_verified then (.json 409 "Email already verified", db)
        else if u.email_otp ≠ some td.token then (.json 401 "OTP Code is incorrect", db)
        else
          (.json 200 "Password set successfully",
           db.map (fun v => if v.email == td.email then verifyUpdate hash password v else v))

/-- The row update applied by `reset_password` on a correct OTP. -/
def resetUpdate (hash : String → String) (pw : String) (v : UserRow) : UserRow :=
  { v with password := some (hash pw), password_otp := none, password_verified := true }

/-- `routers/usr_user.py::reset_password`: same two-step OTP validation as
`set_password`, against `password_otp` / `password_verified`. -/
def reset_password (hash : String → String) (nowStr : String)
    (token_data : Option OtpClaims) (password : String) (db : List UserRow) :
    Resp × List UserRow :=
  match token_data with
  | none => (.err 401 "Invalid token", db)
  | some td =>
    if pyStrLt td.expiry nowStr then (.json 401 "Token expired", db)
    else
      match db.find? (fun u => u.email == td.email) with
      | none => (.json 404 "Email does not exist", db)
      | some u =>
        if u.password_verified then (.json 409 "Password already verified", db)
        else if u.password_otp ≠ some td.token then (.json 401 "OTP Code is incorrect", db)
        else
          (.json 200 "Password set successfully",
           db.map (fun v => if v.email == td.email then resetUpdate hash password v else v))

/-- The row inserted by `create_user`: only email, username, `email_otp`
and `email_verified = false` are supplied; the remaining columns take their
declared defaults (booleans without a default are modelled as `false`). -/
def newUser (uid : Nat) (email username otp : String) : UserRow :=
  ⟨uid, username, email, none, some otp, false, none, false, false, none⟩

/-- `routers/usr_user.py::create_user`. `email_outcome` is the result of the
awaited `send_email` call at the boundary: `none` models a raised dispatch
failure (caught by the generic handler as a 500), `some code` a returned
response with that status code; `send_email` itself only ever returns 200
or raises (`internal/send_email.py`). The insert runs only after a 200. -/
def create_user (db : List UserRow) (email : String) (microsecond : Nat) (otp : String)
    (email_outcome : Option Nat) (new_id : Nat) : Resp × List UserRow :=
  let username := (email.splitOn "@").headD ""
  match db.find? (fun u => u.email == email) with
  | some u =>
    if u.email_verified then (.json 409 "Email already verified", db)
    else (.json 409 "Email already exists", db)
  | none =>
    let username :=
      if (db.find? (fun u => u.username == username)).isSome then
        username ++ "_" ++ toString microsecond
      else username
    match email_outcome with
    | none => (.err 500 "Something went wrong", db)
    | some code =>
      if code = 200 then
        (.json 201 "User created successfully", db ++ [newUser new_id email username otp])
      else (.noResp, db)

/-- `routers/usr_user.py::request_reset_password`: look the user up, send
the OTP email at the boundary, and persist `password_otp` only after a 200
dispatch response. -/
def request_reset_password (db : List UserRow) (email otp : String)
    (email_outcome : Option Nat) : Resp × List UserRow :=
  match db.find? (fun u => u.email == email) with
  | none => (.json 404 "User not found", db)
  | some _ =>
    match email_outcome with
    | none => (.err 500 "Something went wrong", db)
    | some code =>
      if code = 200 then
        (.json 200 "Email sent at given email address",
         db.map (fun u =>
           if u.email == email then
             { u with password_otp := some otp, password_verified := false }
           else u))
      else (.noResp, db)

/-- `routers/usr_user.py::set_role`: roles are probed through `get_role`
(404 when absent), then the targeted user's `role_id` is updated. -/
def set_role (roles : List RoleRow) (db : List UserRow) (role_id user_id : Nat) :
    Resp × List UserRow :=
  match roles.find? (fun r => r.id == role_id) with
  | none => (.json 404 "Role does not exist", db)
  | some _ =>
    (.json 200 "Role set successfully",
     db.map (fun u => if u.id == user_id then { u with role_id := some role_id } else u))


/-- A wall-clock timestamp as produced by `datetime.now()`, at the
second granularity used by the `"%Y-%m-%d %H:%M:%S"` format. -/
structure Ts where
  year : Nat
  month : Nat
  day : Nat
  hour : Nat
  minute : Nat
  second : Nat
deriving DecidableEq, Repr

/-- Component ranges of a real timestamp whose year has four digits. -/
def Ts.Valid (t : Ts) : Prop :=
  1000 ≤ t.year ∧ t.year ≤ 9999 ∧ 1 ≤ t.month ∧ t.month ≤ 12 ∧ 1 ≤ t.day ∧ t.day ≤ 31
  ∧ t.hour ≤ 23 ∧ t.minute ≤ 59 ∧ t.second ≤ 59

/-- Chronological order: lexicographic on
(year, month, day, hour, minute, second). -/
def Ts.chronLt (a b : Ts) : Prop :=
  a.year < b.year ∨ (a.year = b.year ∧ (a.month < b.month ∨ (a.month = b.month ∧
    (a.day < b.day ∨ (a.day = b.day ∧ (a.hour < b.hour ∨ (a.hour = b.hour ∧
      (a.minute < b.minute ∨ (a.minute = b.minute ∧ a.second < b.second)))))))))

instance Ts.Valid.decidable (t : Ts) : Decidable t.Valid := by
  unfold Ts.Valid
  infer_instance

instance Ts.chronLt.decidable (a b : Ts) : Decidable (a.chronLt b) := by
  unfold Ts.chronLt
  infer_instance

/-- The decimal digit character for `n < 10`. -/
def digitChar (n : Nat) : Char := Char.ofNat (48 + n)

/-- Zero-padded two-digit rendering (`%m`, `%d`, `%H`, `%M`, `%S`). -/
def pad2 (n : Nat) : List Char := [digitChar (n / 10), digitChar (n % 10)]

/-- Zero-padded four-digit rendering (`%Y` for years up to 9999). -/
def pad4 (n : Nat) : List Char := pad2 (n / 100) ++ pad2 (n % 100)

/-- The character sequence of `t.strftime("%Y-%m-%d %H:%M:%S")`. -/
def fmtList (t : Ts) : List Char :=
  pad4 t.year ++ '-' :: (pad2 t.month ++ '-' :: (pad2 t.day ++ ' ' ::
    (pad2 t.hour ++ ':' :: (pad2 t.minute ++ ':' :: pad2 t.second))))

/-- Python `t.strftime("%Y-%m-%d %H:%M:%S")` as a string. -/
def Ts.strftime (t : Ts) : String := ⟨fmtList t⟩



theorem get_current_user_decode_error {token : SessionJwt} {key alg : String}
    {now : Nat} {e : String} (ss : List String) (users : List UserRow)
    (roles : List RoleRow) (h : jwt_decode token key [alg] now = .error e) :
    get_current_user ss token key alg now users roles = .error credentials_exception := by
  unfold get_current_user
  rw [h]

theorem get_current_user_decode_ok {token : SessionJwt} {key alg : String}
    {now : Nat} {c : SessionClaims} (ss : List String) (users : List UserRow)
    (roles : List RoleRow) (h : jwt_decode token key [alg] now = .ok c) :
    get_current_user ss token key alg now users roles =
      gcu_after_decode ss c users roles := by
  unfold get_current_user
  rw [h]

theorem jwt_decode_ok_inv {t : SessionJwt} {key : String} {algs : List String}
    {now : Nat} {c : SessionClaims} (h : jwt_decode t key algs now = .ok c) :
    c = t.claims ∧ t.key = key ∧ t.alg ∈ algs ∧ ¬ t.exp < now := by
  unfold jwt_decode at h
  by_cases hka : t.key = key ∧ t.alg ∈ algs
  · rw [if_pos hka] at h
    by_cases hexp : t.exp < now
    · rw [if_pos hexp] at h
      simp at h
    · rw [if_neg hexp] at h
      injection h with h2
      exact ⟨h2.symm, hka.1, hka.2, hexp⟩
  · rw [if_neg hka] at h
    simp at h

theorem jwt_decode_expired {t : SessionJwt} (key : String) (algs : List String)
    {now : Nat} (h : t.exp < now) :
    ∃ e, jwt_decode t key algs now = .error e := by
  unfold jwt_decode
  split_ifs with hka
  · exact ⟨_, rfl⟩
  · exact ⟨_, rfl⟩

theorem jwt_decode_bad_key {t : SessionJwt} {key : String} (algs : List String)
    (now : Nat) (h : t.key ≠ key) :
    ∃ e, jwt_decode t key algs now = .error e := by
  unfold jwt_decode
  rw [if_neg (fun hc => h hc.1)]
  exact ⟨_, rfl⟩

/-- C1: for each of the five role names, `assign_scopes` returns exactly the
input role plus every role ranked below it in the order
super_admin > admin > manager > user > reporting_user, with sizes
5, 4, 3, 2, 1 and `expand(REPORTING_USER) = [REPORTING_USER]`; any role name
outside the five yields the empty list without an error. -/
theorem assign_scopes_downward_closure :
    (assign_scopes ["SUPER_ADMIN"] =
        ["SUPER_ADMIN", "ADMIN", "MANAGER", "USER", "REPORTING_USER"]
      ∧ assign_scopes ["ADMIN"] = ["ADMIN", "MANAGER", "USER", "REPORTING_USER"]
      ∧ assign_scopes ["MANAGER"] = ["MANAGER", "USER", "REPORTING_USER"]
      ∧ assign_scopes ["USER"] = ["USER", "REPORTING_USER"]
      ∧ assign_scopes ["REPORTING_USER"] = ["REPORTING_USER"]
      ∧ (assign_scopes ["SUPER_ADMIN"]).length = 5
      ∧ (assign_scopes ["ADMIN"]).length = 4
      ∧ (assign_scopes ["MANAGER"]).length = 3
      ∧ (assign_scopes ["USER"]).length = 2
      ∧ (assign_scopes ["REPORTING_USER"]).length = 1)
    ∧ ∀ r : String,
        r ∉ (["SUPER_ADMIN", "ADMIN", "MANAGER", "USER", "REPORTING_USER"] : List String) →
        assign_scopes [r] = [] := by
  refine ⟨by decide, ?_⟩
  intro r hr
  simp only [List.mem_cons, List.not_mem_nil, or_false, not_or] at hr
  obtain ⟨h1, h2, h3, h4, h5⟩ := hr
  simp [assign_scopes, Role.SUPER_ADMIN, Role.ADMIN, Role.MANAGER, Role.USER,
    Role.REPORTING_USER, List.mem_singleton, Ne.symm h1, Ne.symm h2, Ne.symm h3,
    Ne.symm h4, Ne.symm h5]

theorem assign_scopes_downward_closure_witness :
    ("INTERN" : String) ∉
        (["SUPER_ADMIN", "ADMIN", "MANAGER", "USER", "REPORTING_USER"] : List String)
      ∧ assign_scopes ["INTERN"] = [] :=
  ⟨by decide, assign_scopes_downward_closure.2 "INTERN" (by decide)⟩

/-- C7: a session token produced by `create_access_token` (for either token
type the function accepts) and immediately decoded with the same secret and
algorithm yields back exactly the claims it was issued with, so `sub`, `id`
and `scopes` round-trip. -/
theorem session_token_roundtrip (c : SessionClaims) (now : Nat) (key alg : String) :
    (create_access_token c "access" now key alg).bind
        (fun t => (jwt_decode t key [alg] now).toOption) = some c
    ∧ (create_access_token c "refresh" now key alg).bind
        (fun t => (jwt_decode t key [alg] now).toOption) = some c := by
  constructor <;>
    simp [create_access_token, jwt_decode, Except.toOption, ACCESS_TOKEN_EXPIRE_MINUTES]

/-- C8: a bearer token whose `exp` claim lies in the past is rejected by the
auth guard with the 401 "Could not validate credentials" authentication
error, as is a token signed with a different key; an expired token is never
accepted and never yields a user. -/
theorem expired_token_rejected (ss : List String) (t : SessionJwt) (key alg : String)
    (now : Nat) (users : List UserRow) (roles : List RoleRow) :
    (t.exp < now →
        get_current_user ss t key alg now users roles = .error credentials_exception)
    ∧ (t.key ≠ key →
        get_current_user ss t key alg now users roles = .error credentials_exception)
    ∧ ∀ u rn, get_current_user ss t key alg now users roles = .ok (u, rn) →
        ¬ t.exp < now := by
  refine ⟨?_, ?_, ?_⟩
  · intro h
    obtain ⟨e, he⟩ := jwt_decode_expired key [alg] h
    exact get_current_user_decode_error ss users roles he
  · intro h
    obtain ⟨e, he⟩ := jwt_decode_bad_key [alg] now h
    exact get_current_user_decode_error ss users roles he
  · intro u rn hok hlt
    obtain ⟨e, he⟩ := jwt_decode_expired key [alg] hlt
    rw [get_current_user_decode_error ss users roles he] at hok
    exact absurd hok (by simp [credentials_exception])

theorem expired_token_rejected_witness :
    (5 : Nat) < 10
    ∧ get_current_user [] ⟨⟨some "alice", some 1, []⟩, 5, "k", "HS256"⟩
        "k" "HS256" 10 [] [] = .error credentials_exception :=
  ⟨by decide,
    (expired_token_rejected [] ⟨⟨some "alice", some 1, []⟩, 5, "k", "HS256"⟩
      "k" "HS256" 10 [] []).1 (by decide)⟩

/-- C2: for a bearer token that decodes to a payload with a subject and
resolves to a known user+role row, the auth guard succeeds precisely when
every required scope is in the scope set resolved from the stored role
name; any miss yields the 401 "Not enough permissions" rejection, which is
a different error value than the "Could not validate credentials"
authentication error used for invalid tokens and unknown users. -/
theorem auth_guard_scope_gate (ss : List String) (token : SessionJwt) (key alg : String)
    (now : Nat) (users : List UserRow) (roles : List RoleRow) (p : SessionClaims)
    (uname : String) (u : UserRow) (rn : String)
    (hdec : jwt_decode token key [alg] now = .ok p)
    (hsub : p.sub = some uname)
    (hfetch : fetch_user_role users roles p.id = some (u, rn)) :
    (get_current_user ss token key alg now users roles = .ok (u, rn)
        ↔ ∀ s ∈ ss, s ∈ assign_scopes [pyUpper rn])
    ∧ ((¬ ∀ s ∈ ss, s ∈ assign_scopes [pyUpper rn]) →
        get_current_user ss token key alg now users roles = .error not_enough_permissions)
    ∧ not_enough_permissions ≠ credentials_exception := by
  rw [get_current_user_decode_ok ss users roles hdec]
  refine ⟨?_, ?_, by decide⟩ <;>
  · unfold gcu_after_decode
    rw [hsub]
    simp only [hfetch]
    by_cases hall : ∀ s ∈ ss, s ∈ assign_scopes [pyUpper rn]
    · simp [hall]
    · simp [hall]

theorem auth_guard_scope_gate_witness :
    get_current_user ["USER"]
        ⟨⟨some "alice", some 1, ["UNRELATED"]⟩, 100, "k", "HS256"⟩ "k" "HS256" 50
        [⟨1, "alice", "alice@x.com", none, none, true, none, false, true, some 7⟩]
        [⟨7, "super_admin"⟩]
      = .ok (⟨1, "alice", "alice@x.com", none, none, true, none, false, true, some 7⟩,
             "super_admin") :=
  (auth_guard_scope_gate ["USER"] ⟨⟨some "alice", some 1, ["UNRELATED"]⟩, 100, "k", "HS256"⟩
    "k" "HS256" 50
    [⟨1, "alice", "alice@x.com", none, none, true, none, false, true, some 7⟩]
    [⟨7, "super_admin"⟩] ⟨some "alice", some 1, ["UNRELATED"]⟩ "alice"
    ⟨1, "alice", "alice@x.com", none, none, true, none, false, true, some 7⟩ "super_admin"
    rfl rfl rfl).1.mpr (by decide)

/-- C10: the auth guard's outcome does not depend on the `scopes` claim
embedded in the token: two valid tokens with the same `sub` and `id` (and
arbitrary, possibly different, embedded scopes) produce identical results,
because the scope set is recomputed from the stored role name. -/
theorem auth_guard_ignores_token_scopes (ss : List String) (t1 t2 : SessionJwt)
    (key alg : String) (now : Nat) (users : List UserRow) (roles : List RoleRow)
    (hv1 : ∃ c, jwt_decode t1 key [alg] now = .ok c)
    (hv2 : ∃ c, jwt_decode t2 key [alg] now = .ok c)
    (hsub : t1.claims.sub = t2.claims.sub) (hid : t1.claims.id = t2.claims.id) :
    get_current_user ss t1 key alg now users roles
      = get_current_user ss t2 key alg now users roles := by
  obtain ⟨c1, h1⟩ := hv1
  obtain ⟨c2, h2⟩ := hv2
  obtain ⟨rfl, -, -, -⟩ := jwt_decode_ok_inv h1
  obtain ⟨rfl, -, -, -⟩ := jwt_decode_ok_inv h2
  rw [get_current_user_decode_ok ss users roles h1,
    get_current_user_decode_ok ss users roles h2]
  unfold gcu_after_decode
  rw [hsub, hid]

theorem auth_guard_ignores_token_scopes_witness :
    get_current_user ["ADMIN"] ⟨⟨some "alice", some 1, ["SUPER_ADMIN"]⟩, 99, "k", "HS256"⟩
        "k" "HS256" 50
        [⟨1, "alice", "alice@x.com", none, none, true, none, false, true, some 7⟩]
        [⟨7, "user"⟩]
      = get_current_user ["ADMIN"] ⟨⟨some "alice", some 1, []⟩, 77, "k", "HS256"⟩
          "k" "HS256" 50
          [⟨1, "alice", "alice@x.com", none, none, true, none, false, true, some 7⟩]
          [⟨7, "user"⟩] :=
  auth_guard_ignores_token_scopes ["ADMIN"]
    ⟨⟨some "alice", some 1, ["SUPER_ADMIN"]⟩, 99, "k", "HS256"⟩
    ⟨⟨some "alice", some 1, []⟩, 77, "k", "HS256"⟩ "k" "HS256" 50
    [⟨1, "alice", "alice@x.com", none, none, true, none, false, true, some 7⟩]
    [⟨7, "user"⟩] ⟨_, rfl⟩ ⟨_, rfl⟩ rfl rfl

theorem find?_update_email (db : List UserRow) (e : String) (f : UserRow → UserRow)
    (hf : ∀ v, (f v).email = v.email) (u : UserRow)
    (hfind : db.find? (fun v => v.email == e) = some u) :
    (db.map (fun v => if v.email == e then f v else v)).find? (fun v => v.email == e)
      = some (f u) := by
  induction db with
  | nil => simp at hfind
  | cons v tl ih =>
    by_cases hv : (v.email == e) = true
    · simp only [List.find?_cons, hv] at hfind
      injection hfind with hu
      subst hu
      have hhead : (if (v.email == e) = true then f v else v) = f v := if_pos hv
      rw [List.map_cons, hhead, List.find?_cons, hf v, hv]
    · have hv' : (v.email == e) = false := eq_false_of_ne_true hv
      simp only [List.find?_cons, hv'] at hfind
      have hhead : (if (v.email == e) = true then f v else v) = v := if_neg hv
      rw [List.map_cons, hhead, List.find?_cons, hv']
      exact ih hfind

/-- C9: `set_role` with a `role_id` absent from the role table returns the
404 "Role does not exist" response and performs no store write: the user
table, including the targeted user's `role_id`, is returned unchanged. -/
theorem set_role_unknown_role_no_write (roles : List RoleRow) (db : List UserRow)
    (role_id user_id : Nat) (h : ∀ r ∈ roles, r.id ≠ role_id) :
    set_role roles db role_id user_id = (.json 404 "Role does not exist", db) := by
  unfold set_role
  have hnone : roles.find? (fun r => r.id == role_id) = none := by
    rw [List.find?_eq_none]
    intro r hr
    simpa using h r hr
  rw [hnone]

theorem set_role_unknown_role_no_write_witness :
    set_role [⟨7, "admin"⟩]
        [⟨1, "alice", "alice@x.com", none, none, true, none, false, true, some 7⟩] 9 1
      = (.json 404 "Role does not exist",
         [⟨1, "alice", "alice@x.com", none, none, true, none, false, true, some 7⟩]) :=
  set_role_unknown_role_no_write [⟨7, "admin"⟩]
    [⟨1, "alice", "alice@x.com", none, none, true, none, false, true, some 7⟩] 9 1
    (by decide)

/-- C5: confirming an unverified user with an unexpired challenge token
whose embedded OTP differs from the stored one fails with the 401 "OTP Code
is incorrect" response and returns the store completely unchanged. -/
theorem set_password_wrong_otp (hash : String → String) (nowStr : String)
    (td : OtpClaims) (pw : String) (db : List UserRow) (u : UserRow) (otp0 : String)
    (hexp : ¬ pyStrLt td.expiry nowStr)
    (hfind : db.find? (fun v => v.email == td.email) = some u)
    (hver : u.email_verified = false)
    (hotp : u.email_otp = some otp0)
    (hne : td.token ≠ otp0) :
    set_password hash nowStr (some td) pw db = (.json 401 "OTP Code is incorrect", db) := by
  simp only [set_password]
  rw [if_neg hexp]
  simp only [hfind]
  rw [if_neg (show ¬ u.email_verified = true by simp [hver])]
  rw [if_pos (show u.email_otp ≠ some td.token by
    rw [hotp]
    exact fun hc => hne (Option.some.inj hc).symm)]

/-- C4: confirming an unverified user with a valid, unexpired challenge
token whose embedded OTP equals the stored one hashes the provided
password, sets `email_verified`, clears `email_otp` (and touches nothing
else and no other row); a subsequent confirm for the same email then
returns the 409 "Email already verified" conflict and leaves the store
unchanged. -/
theorem set_password_correct_otp (hash : String → String) (nowStr : String)
    (td : OtpClaims) (pw : String) (db : List UserRow) (u : UserRow)
    (hexp : ¬ pyStrLt td.expiry nowStr)
    (hfind : db.find? (fun v => v.email == td.email) = some u)
    (hver : u.email_verified = false)
    (hotp : u.email_otp = some td.token) :
    set_password hash nowStr (some td) pw db
      = (.json 200 "Password set successfully",
         db.map (fun v => if v.email == td.email then verifyUpdate hash pw v else v))
    ∧ (db.map (fun v => if v.email == td.email then verifyUpdate hash pw v else v)).find?
        (fun v => v.email == td.email) = some (verifyUpdate hash pw u)
    ∧ (verifyUpdate hash pw u).password = some (hash pw)
    ∧ (verifyUpdate hash pw u).email_verified = true
    ∧ (verifyUpdate hash pw u).email_otp = none
    ∧ ∀ td2 pw2 nowStr2, td2.email = td.email → ¬ pyStrLt td2.expiry nowStr2 →
        set_password hash nowStr2 (some td2) pw2
            (db.map (fun v => if v.email == td.email then verifyUpdate hash pw v else v))
          = (.json 409 "Email already verified",
             db.map (fun v => if v.email == td.email then verifyUpdate hash pw v else v)) := by
  have hfind2 := find?_update_email db td.email (verifyUpdate hash pw) (fun v => rfl) u hfind
  refine ⟨?_, hfind2, rfl, rfl, rfl, ?_⟩
  · simp only [set_password]
    rw [if_neg hexp]
    simp only [hfind]
    rw [if_neg (show ¬ u.email_verified = true by simp [hver])]
    rw [if_neg (show ¬ u.email_otp ≠ some td.token by simp [hotp])]
  · intro td2 pw2 nowStr2 hemail h2exp
    simp only [set_password]
    rw [if_neg h2exp]
    rw [hemail]
    simp only [hfind2]
    rw [if_pos (show (verifyUpdate hash pw u).email_verified = true from rfl)]

theorem set_password_correct_otp_witness :
    set_password (fun s => s ++ "#h") "2024-05-01 12:00:00"
        (some ⟨"alice@x.com", "123456", "2024-05-01 12:03:00"⟩) "pw"
        [⟨1, "alice", "alice@x.com", none, some "123456", false, none, false, false, none⟩]
      = (.json 200 "Password set successfully",
         [⟨1, "alice", "alice@x.com", some "pw#h", none, true, none, false, false, none⟩]) :=
  ((set_password_correct_otp (fun s => s ++ "#h") "2024-05-01 12:00:00"
    ⟨"alice@x.com", "123456", "2024-05-01 12:03:00"⟩ "pw"
    [⟨1, "alice", "alice@x.com", none, some "123456", false, none, false, false, none⟩]
    ⟨1, "alice", "alice@x.com", none, some "123456", false, none, false, false, none⟩
    (by decide) (by decide) rfl rfl).1).trans (by decide)

theorem set_password_wrong_otp_witness :
    set_password (fun s => s ++ "#h") "2024-05-01 12:00:00"
        (some ⟨"alice@x.com", "999999", "2024-05-01 12:03:00"⟩) "pw"
        [⟨1, "alice", "alice@x.com", none, some "123456", false, none, false, false, none⟩]
      = (.json 401 "OTP Code is incorrect",
         [⟨1, "alice", "alice@x.com", none, some "123456", false, none, false, false, none⟩]) :=
  set_password_wrong_otp (fun s => s ++ "#h") "2024-05-01 12:00:00"
    ⟨"alice@x.com", "999999", "2024-05-01 12:03:00"⟩ "pw"
    [⟨1, "alice", "alice@x.com", none, some "123456", false, none, false, false, none⟩]
    ⟨1, "alice", "alice@x.com", none, some "123456", false, none, false, false, none⟩
    "123456" (by decide) (by decide) rfl rfl (by decide)

/-- C6: in both OTP-issuing flows the store write happens only after the
email dispatch call returns a 200 response: any other dispatch outcome
(including a raised failure, modelled as `none`) leaves the store
unchanged, and conversely a changed store implies dispatch returned 200. -/
theorem otp_send_then_persist (db : List UserRow) (email otp : String)
    (microsecond new_id : Nat) (outcome : Option Nat) :
    (outcome ≠ some 200 →
      (create_user db email microsecond otp outcome new_id).2 = db
      ∧ (request_reset_password db email otp outcome).2 = db)
    ∧ ((create_user db email microsecond otp outcome new_id).2 ≠ db →
        outcome = some 200)
    ∧ ((request_reset_password db email otp outcome).2 ≠ db → outcome = some 200) := by
  have hmain : outcome ≠ some 200 →
      (create_user db email microsecond otp outcome new_id).2 = db
      ∧ (request_reset_password db email otp outcome).2 = db := by
    intro hne
    constructor
    · unfold create_user
      split
      · split <;> rfl
      · match outcome, hne with
        | none, _ => rfl
        | some code, hne =>
          have : ¬ code = 200 := fun hc => hne (by rw [hc])
          simp only [if_neg this]
    · unfold request_reset_password
      split
      · rfl
      · match outcome, hne with
        | none, _ => rfl
        | some code, hne =>
          have : ¬ code = 200 := fun hc => hne (by rw [hc])
          simp only [if_neg this]
  refine ⟨hmain, ?_, ?_⟩
  · intro hchanged
    by_contra hne
    exact hchanged (hmain hne).1
  · intro hchanged
    by_contra hne
    exact hchanged (hmain hne).2

theorem otp_send_then_persist_witness :
    (create_user [] "alice@x.com" 42 "123456" none 1).2 = []
    ∧ (request_reset_password
        [⟨1, "alice", "alice@x.com", none, none, true, none, false, true, none⟩]
        "alice@x.com" "123456" none).2
      = [⟨1, "alice", "alice@x.com", none, none, true, none, false, true, none⟩] :=
  ⟨((otp_send_then_persist [] "alice@x.com" "123456" 42 1 none).1 (by decide)).1,
   ((otp_send_then_persist
      [⟨1, "alice", "alice@x.com", none, none, true, none, false, true, none⟩]
      "alice@x.com" "123456" 42 1 none).1 (by decide)).2⟩

theorem lexConsIff (a b : Char) (l1 l2 : List Char) :
    List.Lex (· < ·) (a :: l1) (b :: l2) ↔ a < b ∨ (a = b ∧ List.Lex (· < ·) l1 l2) := by
  constructor
  · intro h
    cases h with
    | cons h => exact Or.inr ⟨rfl, h⟩
    | rel h => exact Or.inl h
  · rintro (h | ⟨rfl, h⟩)
    · exact List.Lex.rel h
    · exact List.Lex.cons h

theorem lexAppendIff (s1 : List Char) : ∀ (s2 t1 t2 : List Char), s1.length = s2.length →
    (List.Lex (· < ·) (s1 ++ t1) (s2 ++ t2)
      ↔ List.Lex (· < ·) s1 s2 ∨ (s1 = s2 ∧ List.Lex (· < ·) t1 t2)) := by
  induction s1 with
  | nil =>
    intro s2 t1 t2 h
    cases s2 with
    | nil => simp
    | cons b s2 => simp at h
  | cons a s1 ih =>
    intro s2 t1 t2 h
    cases s2 with
    | nil => simp at h
    | cons b s2 =>
      simp only [List.cons_append, lexConsIff, List.cons.injEq]
      rw [ih s2 t1 t2 (by simpa using h)]
      tauto

theorem digitChar_lt_iff : ∀ m, m < 10 → ∀ n, n < 10 →
    (digitChar m < digitChar n ↔ m < n) := by decide

theorem digitChar_inj : ∀ m, m < 10 → ∀ n, n < 10 →
    (digitChar m = digitChar n ↔ m = n) := by decide

theorem pad2_lt_iff (m n : Nat) (hm : m < 100) (hn : n < 100) :
    (List.Lex (· < ·) (pad2 m) (pad2 n)) ↔ m < n := by
  unfold pad2
  rw [lexConsIff, List.Lex.singleton_iff]
  rw [digitChar_lt_iff (m / 10) (by omega) (n / 10) (by omega),
    digitChar_inj (m / 10) (by omega) (n / 10) (by omega),
    digitChar_lt_iff (m % 10) (by omega) (n % 10) (by omega)]
  omega

theorem pad2_inj (m n : Nat) (hm : m < 100) (hn : n < 100) :
    pad2 m = pad2 n ↔ m = n := by
  unfold pad2
  simp only [List.cons.injEq, and_true]
  rw [digitChar_inj (m / 10) (by omega) (n / 10) (by omega),
    digitChar_inj (m % 10) (by omega) (n % 10) (by omega)]
  omega

theorem pad4_lt_iff (m n : Nat) (hm : m < 10000) (hn : n < 10000) :
    (List.Lex (· < ·) (pad4 m) (pad4 n)) ↔ m < n := by
  unfold pad4
  rw [lexAppendIff (pad2 (m / 100)) (pad2 (n / 100)) (pad2 (m % 100)) (pad2 (n % 100)) rfl]
  rw [pad2_lt_iff _ _ (by omega) (by omega), pad2_inj _ _ (by omega) (by omega),
    pad2_lt_iff _ _ (by omega) (by omega)]
  omega

theorem pad4_inj (m n : Nat) (hm : m < 10000) (hn : n < 10000) :
    pad4 m = pad4 n ↔ m = n := by
  constructor
  · intro h
    obtain ⟨h1, h2⟩ := List.append_inj h rfl
    rw [pad2_inj _ _ (by omega) (by omega)] at h1
    rw [pad2_inj _ _ (by omega) (by omega)] at h2
    omega
  · rintro rfl
    rfl

theorem sepBlock2_iff (c : Char) (m n : Nat) (hm : m < 100) (hn : n < 100)
    (t1 t2 : List Char) :
    List.Lex (· < ·) (pad2 m ++ c :: t1) (pad2 n ++ c :: t2)
      ↔ m < n ∨ (m = n ∧ List.Lex (· < ·) t1 t2) := by
  rw [lexAppendIff (pad2 m) (pad2 n) (c :: t1) (c :: t2) rfl]
  rw [pad2_lt_iff _ _ hm hn, pad2_inj _ _ hm hn, lexConsIff]
  simp [lt_irrefl]

theorem sepBlock4_iff (c : Char) (m n : Nat) (hm : m < 10000) (hn : n < 10000)
    (t1 t2 : List Char) :
    List.Lex (· < ·) (pad4 m ++ c :: t1) (pad4 n ++ c :: t2)
      ↔ m < n ∨ (m = n ∧ List.Lex (· < ·) t1 t2) := by
  rw [lexAppendIff (pad4 m) (pad4 n) (c :: t1) (c :: t2) rfl]
  rw [pad4_lt_iff _ _ hm hn, pad4_inj _ _ hm hn, lexConsIff]
  simp [lt_irrefl]

theorem strftime_lt_iff_chronLt (a b : Ts) (ha : a.Valid) (hb : b.Valid) :
    pyStrLt a.strftime b.strftime ↔ a.chronLt b := by
  obtain ⟨ha1, ha2, ha3, ha4, ha5, ha6, ha7, ha8, ha9⟩ := ha
  obtain ⟨hb1, hb2, hb3, hb4, hb5, hb6, hb7, hb8, hb9⟩ := hb
  show List.Lex (· < ·) (fmtList a) (fmtList b) ↔ _
  unfold fmtList
  rw [sepBlock4_iff _ _ _ (by omega) (by omega),
    sepBlock2_iff _ _ _ (by omega) (by omega),
    sepBlock2_iff _ _ _ (by omega) (by omega),
    sepBlock2_iff _ _ _ (by omega) (by omega),
    sepBlock2_iff _ _ _ (by omega) (by omega),
    pad2_lt_iff _ _ (by omega) (by omega)]
  exact Iff.rfl

/-- C3: the OTP expiry check in `set_password` and `reset_password`
compares the embedded expiry string to the formatted current time with
string (lexicographic) comparison, and on every pair of valid timestamps
with four-digit years this lexicographic order coincides with
chronological order — so the "Token expired" branch is taken exactly on
chronologically expired tokens. -/
theorem otp_expiry_string_comparison (e n : Ts) (he : e.Valid) (hn : n.Valid) :
    (pyStrLt e.strftime n.strftime ↔ e.chronLt n)
    ∧ (∀ hash td pw db, td.expiry = e.strftime →
        (set_password hash n.strftime (some td) pw db = (.json 401 "Token expired", db)
          ↔ e.chronLt n))
    ∧ (∀ hash td pw db, td.expiry = e.strftime →
        (reset_password hash n.strftime (some td) pw db = (.json 401 "Token expired", db)
          ↔ e.chronLt n)) := by
  have hiff := strftime_lt_iff_chronLt e n he hn
  refine ⟨hiff, ?_, ?_⟩
  · intro hash td pw db htd
    by_cases hc : e.chronLt n
    · have hlt : pyStrLt td.expiry n.strftime := htd ▸ hiff.mpr hc
      simp only [set_password]
      rw [if_pos hlt]
      exact iff_of_true rfl hc
    · have hlt : ¬ pyStrLt td.expiry n.strftime := by
        rw [htd]
        exact fun h => hc (hiff.mp h)
      simp only [set_password]
      rw [if_neg hlt]
      refine iff_of_false ?_ hc
      intro hEq
      split at hEq
      · simp at hEq
      · split_ifs at hEq <;> simp at hEq
  · intro hash td pw db htd
    by_cases hc : e.chronLt n
    · have hlt : pyStrLt td.expiry n.strftime := htd ▸ hiff.mpr hc
      simp only [reset_password]
      rw [if_pos hlt]
      exact iff_of_true rfl hc
    · have hlt : ¬ pyStrLt td.expiry n.strftime := by
        rw [htd]
        exact fun h => hc (hiff.mp h)
      simp only [reset_password]
      rw [if_neg hlt]
      refine iff_of_false ?_ hc
      intro hEq
      split at hEq
      · simp at hEq
      · split_ifs at hEq <;> simp at hEq

theorem otp_expiry_string_comparison_witness :
    Ts.Valid ⟨2024, 5, 1, 11, 59, 59⟩ ∧ Ts.Valid ⟨2024, 5, 1, 12, 0, 0⟩
    ∧ pyStrLt (Ts.strftime ⟨2024, 5, 1, 11, 59, 59⟩) (Ts.strftime ⟨2024, 5, 1, 12, 0, 0⟩)
    ∧ set_password (fun s => s) (Ts.strftime ⟨2024, 5, 1, 12, 0, 0⟩)
        (some ⟨"a@x.com", "123456", Ts.strftime ⟨2024, 5, 1, 11, 59, 59⟩⟩) "pw" []
      = (.json 401 "Token expired", []) :=
  ⟨by decide, by decide,
   ((otp_expiry_string_comparison ⟨2024, 5, 1, 11, 59, 59⟩ ⟨2024, 5, 1, 12, 0, 0⟩
      (by decide) (by decide)).1).mpr (by decide),
   ((otp_expiry_string_comparison ⟨2024, 5, 1, 11, 59, 59⟩ ⟨2024, 5, 1, 12, 0, 0⟩
      (by decide) (by decide)).2.1 (fun s => s)
      ⟨"a@x.com", "123456", Ts.strftime ⟨2024, 5, 1, 11, 59, 59⟩⟩ "pw" [] rfl).mpr
    (by decide)⟩
